import Mathlib

/-!
Verification of the MCP GitHub repository-management tool.

Shallow embedding of `src/mcp/file_ops.py`, `src/mcp/git_ops.py` and
`src/mcp/server.py`.  Pure Python string/path manipulation is translated to
executable Lean functions over `String` / `List Char`; the filesystem, the
GitPython library and the configuration are modelled as explicit state and
outcome parameters; Python exceptions are modelled with `Except`.
-/

/-! ## Python string primitives

Models of the Python `str` methods the repository uses: `split`, `strip`,
`upper`, `replace`, `startswith`, `endswith`, slicing and truthiness. -/

/-- Characters stripped by Python `str.strip()` with no argument (ASCII part). -/
def isPyWhitespace (c : Char) : Bool :=
  c = ' ' || c = '\t' || c = '\n' || c = '\x0d' || c = '\x0b' || c = '\x0c'

/-- Model of Python `str.strip()` : drop whitespace from both ends. -/
def pyStrip (s : String) : String :=
  ⟨((s.data.dropWhile isPyWhitespace).reverse.dropWhile isPyWhitespace).reverse⟩

/-- Model of Python `str.strip(c)` for a single character argument. -/
def pyStripChar (c : Char) (s : String) : String :=
  ⟨((s.data.dropWhile (· = c)).reverse.dropWhile (· = c)).reverse⟩

/-- Split a character list at every occurrence of `sep`, keeping empty
segments, as Python `str.split(sep)` does. -/
def splitOnChar (sep : Char) : List Char → List (List Char)
  | [] => [[]]
  | c :: cs =>
    match splitOnChar sep cs with
    | [] => [[]]
    | seg :: rest => if c = sep then [] :: seg :: rest else (c :: seg) :: rest

/-- Model of Python `str.split(sep)` for a one-character separator. -/
def pySplit (s : String) (sep : Char) : List String :=
  (splitOnChar sep s.data).map (fun l => ⟨l⟩)

/-- Model of Python `str.upper()` (the ASCII case, which is all the code
compares against). -/
def pyUpper (s : String) : String :=
  ⟨s.data.map Char.toUpper⟩

/-- Does the list `l` start with the list `pat`? -/
def listStarts : List Char → List Char → Bool
  | [], _ => true
  | _ :: _, [] => false
  | p :: ps, c :: cs => p = c && listStarts ps cs

/-- Model of Python `str.startswith`. -/
def pyStarts (pre s : String) : Bool :=
  listStarts pre.data s.data

/-- Model of Python `str.endswith`. -/
def pyEnds (suf s : String) : Bool :=
  listStarts suf.data.reverse s.data.reverse

/-- Model of Python slicing `s[:-n]`. -/
def pyDropRight (s : String) (n : Nat) : String :=
  ⟨s.data.take (s.data.length - n)⟩

/-- Fueled worker for `pyReplace`; the fuel is the length of the list, which
bounds the number of steps since every step consumes at least one character. -/
def replaceFromFuel (pat rep : List Char) : Nat → List Char → List Char
  | _, [] => []
  | 0, l => l
  | fuel + 1, c :: cs =>
    if pat ≠ [] && listStarts pat (c :: cs) then
      rep ++ replaceFromFuel pat rep fuel (cs.drop (pat.length - 1))
    else
      c :: replaceFromFuel pat rep fuel cs

/-- Model of Python `str.replace(pat, rep)` for a non-empty pattern:
replace every (leftmost, non-overlapping) occurrence. -/
def pyReplace (s pat rep : String) : String :=
  ⟨replaceFromFuel pat.data rep.data s.data.length s.data⟩

/-- Model of Python truthiness of a `str`: non-empty strings are truthy. -/
def pyTruthy (s : String) : Bool :=
  s ≠ ""

/-! ## FileOperations (`src/mcp/file_ops.py`)

Paths are represented as their `pathlib` component lists (`Path(s).parts`).
The filesystem is modelled as the finite sets of existing directories and
files, named by resolved component lists; OS-level path resolution removes a
`..` component together with the component before it (the behaviour of the
POSIX calls when the intermediate directories exist, which they do in every
concrete state used below).  The interactive overwrite prompt of
`create_file` is modelled by an explicit `promptYes` argument, and the model
has no permissions, so the `PermissionError` branches are unreachable. -/

namespace FileOperations

/-- The characters rejected by the regex `[<>:"/\\|?*]` in `is_valid_filename`. -/
def invalidChars : List Char :=
  ['<', '>', ':', '"', '/', '\\', '|', '?', '*']

/-- The Windows reserved device names of `is_valid_filename`. -/
def reservedNames : List String :=
  ["CON", "PRN", "AUX", "NUL",
   "COM1", "COM2", "COM3", "COM4", "COM5", "COM6", "COM7", "COM8", "COM9",
   "LPT1", "LPT2", "LPT3", "LPT4", "LPT5", "LPT6", "LPT7", "LPT8", "LPT9"]

/-- Embedding of `FileOperations.is_valid_filename`. -/
def is_valid_filename (filename : String) : Bool :=
  if filename.data.any (fun c => invalidChars.contains c) then false
  else if reservedNames.contains (pyUpper ((pySplit filename '.').headD "")) then false
  else if 255 < filename.data.length then false
  else if pyStrip filename = "" then false
  else true

/-- Embedding of `pathlib.Path(s).parts` for POSIX paths: split on `/`,
drop empty and `.` components, and record a root marker `"/"` for absolute
paths. -/
def pathParts (s : String) : List String :=
  let comps := (pySplit s '/').filter (fun c => !(c == "" || c == "."))
  if pyStarts "/" s then "/" :: comps else comps

/-- Embedding of `FileOperations.is_valid_path`. -/
def is_valid_path (path : String) : Bool :=
  let parts := pathParts path
  if parts.contains ".." then false
  else parts.all is_valid_filename

/-- OS-level resolution of `..` components (worker; the accumulator holds the
already-resolved components in reverse). -/
def resolveAux : List String → List String → List String
  | acc, [] => acc.reverse
  | acc, ".." :: rest => resolveAux (acc.drop 1) rest
  | acc, c :: rest => resolveAux (c :: acc) rest

/-- OS-level resolution of `..` components in a component list. -/
def resolvePath (p : List String) : List String :=
  resolveAux [] p

/-- The filesystem model: the sets of existing directories and files, named
by resolved component lists. -/
structure FS where
  dirs : List (List String)
  files : List (List String)
deriving DecidableEq

/-- Does the path exist (as a directory or a file)? -/
def FS.pathExists (fs : FS) (p : List String) : Bool :=
  fs.dirs.contains (resolvePath p) || fs.files.contains (resolvePath p)

/-- Is the path an existing directory? -/
def FS.isDir (fs : FS) (p : List String) : Bool :=
  fs.dirs.contains (resolvePath p)

/-- All the leading slices of a component list, shortest first. -/
def prefixesOf : List String → List (List String)
  | [] => [[]]
  | c :: cs => [] :: (prefixesOf cs).map (c :: ·)

/-- Model of `Path.mkdir(parents=True, exist_ok=True)`: create the resolved
directory and every missing ancestor. -/
def FS.mkdirParents (fs : FS) (p : List String) : FS :=
  { fs with dirs := fs.dirs ++ ((prefixesOf (resolvePath p)).filter (fun q => !fs.dirs.contains q)) }

/-- Model of `Path.touch()`: record the resolved path as an existing file. -/
def FS.touch (fs : FS) (p : List String) : FS :=
  { fs with files := resolvePath p :: fs.files }

/-- Embedding of the `pathlib` attribute `Path.name`: the last component (empty for the
root and for the empty path). -/
def pathName (p : List String) : String :=
  match p.getLast? with
  | some c => if c = "/" then "" else c
  | none => ""

/-- Embedding of the `pathlib` attribute `Path.parent`: drop the last component, except
on the root and the empty path. -/
def pathParent (p : List String) : List String :=
  if p = [] || p = ["/"] then p else p.dropLast

/-- Embedding of the `pathlib` `/` join on component lists: an absolute
right-hand operand replaces the left-hand side. -/
def pjoin (a b : List String) : List String :=
  if b.headD "" = "/" then b else a ++ b

/-- Embedding of `FileOperations.create_directory` on the filesystem model. -/
def create_directory (fs : FS) (p : List String) (dry_run : Bool) : Bool × FS :=
  if fs.pathExists p then
    if fs.isDir p then (true, fs) else (false, fs)
  else if dry_run then (true, fs)
  else (true, fs.mkdirParents p)

/-- Embedding of `FileOperations.create_file`; `promptYes` models the answer
to the interactive overwrite prompt. -/
def create_file (fs : FS) (p : List String) (dry_run overwrite promptYes : Bool) : Bool × FS :=
  if !is_valid_filename (pathName p) then (false, fs)
  else if fs.pathExists p && !overwrite && !promptYes then (false, fs)
  else if fs.pathExists p && dry_run then (true, fs)
  else
    match create_directory fs (pathParent p) dry_run with
    | (false, fs1) => (false, fs1)
    | (true, fs1) => if dry_run then (true, fs1) else (true, fs1.touch p)

/-- Embedding of `FileOperations.add_file_to_section`.  `sect` is the
`section` argument of the Python function. -/
def add_file_to_section (fs : FS) (repo_path sect filename : String)
    (dry_run overwrite promptYes : Bool) : Bool × FS :=
  let repoParts := pathParts repo_path
  if !fs.pathExists repoParts then (false, fs)
  else if !fs.isDir repoParts then (false, fs)
  else if !is_valid_path sect then (false, fs)
  else
    let sectionPath := pjoin repoParts (pathParts sect)
    let file_path := pjoin sectionPath (pathParts filename)
    create_file fs file_path dry_run overwrite promptYes

/-- Is `p` a path lying under the directory `d` (that is, does `d` lead to
`p`)? -/
def underDir : List String → List String → Bool
  | [], _ => true
  | _ :: _, [] => false
  | a :: as, b :: bs => a = b && underDir as bs

end FileOperations

/-! ## GitOperations (`src/mcp/git_ops.py`)

The GitPython library and the filesystem state that `clone_repository` and
`push_changes` consult are modelled by explicit environment records whose
fields give the outcome of each library call; Python exceptions raised by the
library are modelled as `Option PyExn` outcomes, and the `try/except` blocks
as a wrapper over an `Except`-valued body. -/

namespace GitOperations

/-- A Python exception as seen by the `except` clauses of `git_ops.py`:
either a `git.GitCommandError` or any other `Exception`. -/
inductive PyExn where
  | gitCommand (msg : String)
  | other (msg : String)
deriving DecidableEq

/-- The result of Python `urllib.parse.urlparse` on a URL string, restricted
to the two attributes `is_valid_repo_url` inspects, together with the raw
URL text. -/
structure ParsedUrl where
  raw : String
  netloc : String
  path : String
deriving DecidableEq

/-- A character accepted by the regex `^[a-zA-Z0-9._-]+$`. -/
def validNameChar (c : Char) : Bool :=
  c.isAlpha || c.isDigit || c = '.' || c = '_' || c = '-'

/-- Model of the compiled regex of valid-name characters matching `s`. -/
def matchesNamePattern (s : String) : Bool :=
  s ≠ "" && s.data.all validNameChar

/-- Embedding of `GitOperations.is_valid_repo_url` on the parsed URL. -/
def is_valid_repo_url (u : ParsedUrl) : Bool :=
  if !(u.netloc = "github.com" || u.netloc = "www.github.com") then false
  else
    let path_parts := pySplit (pyStripChar '/' u.path) '/'
    if path_parts.length < 2 then false
    else
      let username := path_parts.headD ""
      let repo0 := (path_parts.get? 1).getD ""
      if username = "" || repo0 = "" then false
      else
        let repo := if pyEnds ".git" repo0 then pyDropRight repo0 4 else repo0
        matchesNamePattern username && matchesNamePattern repo

/-- Environment of one `clone_repository` call: the state the filesystem
answers with and the outcomes of the fallible library calls.
`dirNonEmpty` is the value of `local_path_obj.is_dir() and
any(local_path_obj.iterdir())`, `promptYes` the answer to the interactive
prompt, and `mkdirExn` / `cloneExn` the exception (if any) raised by
`Path.mkdir` / `Repo.clone_from`. -/
structure CloneEnv where
  localExists : Bool
  dirNonEmpty : Bool
  isFile : Bool
  promptYes : Bool
  mkdirExn : Option PyExn
  cloneExn : Option PyExn
deriving DecidableEq

/-- The body of the `try` block of `clone_repository`: the value returned or
the exception raised, paired with whether `Repo.clone_from` completed. -/
def cloneBody (env : CloneEnv) (u : ParsedUrl) (dry_run : Bool) :
    Except PyExn Bool × Bool :=
  if !is_valid_repo_url u then (Except.ok false, false)
  else if env.localExists && env.dirNonEmpty && !env.promptYes then (Except.ok false, false)
  else if env.localExists && !env.dirNonEmpty && env.isFile then (Except.ok false, false)
  else if dry_run then (Except.ok true, false)
  else
    match env.mkdirExn with
    | some e => (Except.error e, false)
    | none =>
      match env.cloneExn with
      | some e => (Except.error e, false)
      | none => (Except.ok true, true)

/-- Embedding of `GitOperations.clone_repository`: the `try` body wrapped in
the two `except` clauses, which both return `False`.  The second component
records whether a clone was performed. -/
def clone_repository (env : CloneEnv) (u : ParsedUrl) (dry_run : Bool) : Bool × Bool :=
  match cloneBody env u dry_run with
  | (Except.ok b, c) => (b, c)
  | (Except.error _e, c) => (false, c)

/-- Environment of one `push_changes` call: the state of the repository and
configuration and the outcomes of the fallible library calls.
`isRepoValid` is the value of `is_git_repository(local_path)`, `untracked`
the value of `repo.untracked_files`, `remoteExists` whether
the origin-remote lookup succeeds, and `token` the value of
`config.get_github_token()` (`none` models Python `None`). -/
structure PushEnv where
  isRepoValid : Bool
  isDirty : Bool
  untracked : List String
  addExn : Option PyExn
  commitExn : Option PyExn
  remoteExists : Bool
  token : Option String
  originUrl : String
  defaultBranch : String
  pushExn : Option PyExn
deriving DecidableEq

/-- The observable repository state threaded through `push_changes`: the
origin remote URL and the staging, commit and push actions performed. -/
structure RepoState where
  originUrl : String
  staged : Bool
  commits : List String
  pushes : List String
deriving DecidableEq

/-- The repository state before a `push_changes` call in environment `env`. -/
def initRepoState (env : PushEnv) : RepoState :=
  ⟨env.originUrl, false, [], []⟩

/-- Is the configured token truthy in Python (`if github_token:`)? -/
def tokenTruthy (t : Option String) : Bool :=
  match t with
  | some tok => tok ≠ ""
  | none => false

/-- The body of the `try` block of `push_changes`: the value returned or the
exception raised, paired with the repository state reached. -/
def pushBody (env : PushEnv) (commit_message : String) (dry_run : Bool) :
    Except PyExn Bool × RepoState :=
  let s0 := initRepoState env
  if !env.isRepoValid then (Except.ok false, s0)
  else if !env.isDirty && env.untracked = [] then (Except.ok true, s0)
  else if dry_run then (Except.ok true, s0)
  else
    match env.addExn with
    | some e => (Except.error e, s0)
    | none =>
      let s1 := { s0 with staged := true }
      match env.commitExn with
      | some e => (Except.error e, s1)
      | none =>
        let s2 := { s1 with commits := s1.commits ++ [commit_message] }
        if !env.remoteExists then (Except.error (PyExn.other "No such remote origin"), s2)
        else
          let authUrl :=
            pyReplace s2.originUrl "https://github.com/"
              ("https://" ++ (env.token.getD "") ++ "@github.com/")
          let s3 :=
            if tokenTruthy env.token && pyStarts "https://github.com/" s2.originUrl then
              { s2 with originUrl := authUrl }
            else s2
          match env.pushExn with
          | some e => (Except.error e, s3)
          | none => (Except.ok true, { s3 with pushes := s3.pushes ++ [env.defaultBranch] })

/-- Embedding of `GitOperations.push_changes`: the `try` body wrapped in the
two `except` clauses, which both return `False`. -/
def push_changes (env : PushEnv) (commit_message : String) (dry_run : Bool) :
    Bool × RepoState :=
  match pushBody env commit_message dry_run with
  | (Except.ok b, s) => (b, s)
  | (Except.error _e, s) => (false, s)

end GitOperations

/-! ## Server (`src/mcp/server.py`)

The `active_operations` dict is modelled as an association list from
operation ids to operation records; `uuid.uuid4()` is modelled by an
explicit `newId` argument (freshness is a hypothesis where it matters), and
`datetime.now()` by an explicit `now : Nat` argument.  The background
execution functions take the environments of the Git and file operations
they delegate to.  Building a `OperationResponse` from a stored operation
dict is modelled by `buildOperationResponse`, which checks that every
required field name of the pydantic model occurs among the keys of the
stored dict, as pydantic validation does. -/

namespace Server

/-- One entry of the `active_operations` dict. -/
structure Operation where
  id : String
  type : String
  status : String
  message : String
  params : List (String × String)
  createdAt : Nat
  completedAt : Option Nat
  result : Option (List (String × String))
  error : Option String
deriving DecidableEq

/-- The `active_operations` store. -/
abbrev Store := List (String × Operation)

/-- The keys of the store. -/
def keys (store : Store) : List String :=
  store.map Prod.fst

/-- Dict lookup in the store. -/
def findOp (store : Store) (k : String) : Option Operation :=
  (List.find? (fun kv => kv.1 = k) store).map Prod.snd

/-- Embedding of `create_operation`; `newId` is the generated
`str(uuid.uuid4())` and `now` the value of `datetime.now()`. -/
def create_operation (store : Store) (newId opType : String)
    (params : List (String × String)) (now : Nat) : String × Store :=
  (newId,
    (newId,
      { id := newId
        type := opType
        status := "pending"
        message := "Operation " ++ opType ++ " created"
        params := params
        createdAt := now
        completedAt := none
        result := none
        error := none }) :: store)

/-- Embedding of `update_operation`. -/
def update_operation (store : Store) (opId status message : String)
    (result : Option (List (String × String))) (error : Option String)
    (now : Nat) : Store :=
  store.map (fun kv =>
    if kv.1 = opId then
      (kv.1,
        { kv.2 with
          status := status
          message := message
          result := result
          error := error
          completedAt :=
            if status = "completed" || status = "failed" then some now
            else kv.2.completedAt })
    else kv)

/-- Embedding of `execute_clone_operation`.  The raised
`ValueError(f"Invalid repository URL: ...")` lands in the `except` clause,
which records status `failed`; the boolean result of
`clone_repository` is bound and ignored, exactly as in the source. -/
def execute_clone_operation (store : Store) (opId : String)
    (u : GitOperations.ParsedUrl) (local_path : String)
    (env : GitOperations.CloneEnv) (now : Nat) : Store :=
  let s1 := update_operation store opId "running" "Cloning repository..." none none now
  if !GitOperations.is_valid_repo_url u then
    update_operation s1 opId "failed" "Clone operation failed" none
      (some ("Invalid repository URL: " ++ u.raw)) now
  else
    let _result := GitOperations.clone_repository env u false
    update_operation s1 opId "completed" "Repository cloned successfully"
      (some [("path", local_path)]) none now

/-- Embedding of `execute_push_operation`; as in the source, the boolean
result of `push_changes` is bound and ignored. -/
def execute_push_operation (store : Store) (opId : String)
    (env : GitOperations.PushEnv) (repo_path commit_message : String)
    (now : Nat) : Store :=
  let s1 := update_operation store opId "running" "Pushing changes..." none none now
  if !env.isRepoValid then
    update_operation s1 opId "failed" "Push operation failed" none
      (some ("Not a valid Git repository: " ++ repo_path)) now
  else
    let _result := GitOperations.push_changes env commit_message false
    update_operation s1 opId "completed" "Changes pushed successfully"
      (some [("commit_message", commit_message)]) none now

/-- Render of a Python bool inside the result dict (`{"path": result, ...}`
stores the boolean returned by `add_file_to_section`). -/
def boolStr (b : Bool) : String :=
  if b then "True" else "False"

/-- Embedding of `execute_add_file_operation`.  The call
`file_ops.add_file_to_section(repo_path, section, filename, content)` binds
`content` to the fourth positional parameter of `add_file_to_section`, which
is `dry_run`; its truthiness is `pyTruthy content`.  The boolean result is
stored under the key `"path"` of the result dict, as in the source. -/
def execute_add_file_operation (store : Store) (opId : String)
    (fs : FileOperations.FS) (repo_path sect filename content : String)
    (promptYes : Bool) (now : Nat) : Store × FileOperations.FS :=
  let s1 := update_operation store opId "running" "Creating file..." none none now
  if !FileOperations.is_valid_filename filename then
    (update_operation s1 opId "failed" "Add file operation failed" none
      (some ("Invalid filename: " ++ filename)) now, fs)
  else if !FileOperations.is_valid_path repo_path then
    (update_operation s1 opId "failed" "Add file operation failed" none
      (some ("Invalid repository path: " ++ repo_path)) now, fs)
  else
    let r := FileOperations.add_file_to_section fs repo_path sect filename
      (pyTruthy content) false promptYes
    (update_operation s1 opId "completed" "File created successfully"
      (some [("path", boolStr r.1), ("section", sect), ("filename", filename)]) none now,
     r.2)

/-- An HTTP-level failure of an endpoint: a 404 from an explicit
`HTTPException`, or a 500 from an uncaught exception such as a pydantic
validation error. -/
inductive EndpointError where
  | notFound
  | serverError
deriving DecidableEq

/-- The data of a successfully constructed `OperationResponse`. -/
structure OpView where
  operationId : String
  status : String
  message : String
  createdAt : Nat
  completedAt : Option Nat
  result : Option (List (String × String))
  error : Option String
deriving DecidableEq

/-- The required (non-defaulted) fields of the pydantic model
`OperationResponse`. -/
def operationResponseRequiredFields : List String :=
  ["operation_id", "status", "message", "created_at"]

/-- The keys of a stored operation dict, as written by `create_operation`
and preserved by `update_operation`. -/
def storedOperationKeys : List String :=
  ["id", "type", "status", "message", "params", "created_at", "completed_at",
   "result", "error"]

/-- Model of `OperationResponse(**operation)`: pydantic validation requires
every required field name to occur among the keyword arguments, which are
the keys of the stored dict; a missing required field raises a validation
error, which the endpoint does not catch. -/
def buildOperationResponse (op : Operation) : Except EndpointError OpView :=
  if operationResponseRequiredFields.all (fun f => storedOperationKeys.contains f) then
    Except.ok ⟨op.id, op.status, op.message, op.createdAt, op.completedAt, op.result, op.error⟩
  else
    Except.error EndpointError.serverError

/-- Embedding of the `POST /api/clone` endpoint body (after authentication):
create the operation, register the background task, and build the response
from the stored dict. -/
def clone_endpoint (store : Store) (newId repo_url local_path : String)
    (now : Nat) : Except EndpointError OpView × Store :=
  let c := create_operation store newId "clone"
    [("repo_url", repo_url), ("local_path", local_path)] now
  let resp :=
    match findOp c.2 c.1 with
    | none => Except.error EndpointError.serverError
    | some op => buildOperationResponse op
  (resp, c.2)

/-- Embedding of the `POST /api/push` endpoint body. -/
def push_endpoint (store : Store) (newId repo_path commit_message : String)
    (now : Nat) : Except EndpointError OpView × Store :=
  let c := create_operation store newId "push"
    [("repo_path", repo_path), ("commit_message", commit_message)] now
  let resp :=
    match findOp c.2 c.1 with
    | none => Except.error EndpointError.serverError
    | some op => buildOperationResponse op
  (resp, c.2)

/-- Embedding of the `POST /api/add-file` endpoint body. -/
def add_file_endpoint (store : Store) (newId repo_path sect filename content : String)
    (now : Nat) : Except EndpointError OpView × Store :=
  let c := create_operation store newId "add-file"
    [("repo_path", repo_path), ("section", sect), ("filename", filename),
     ("content", content)] now
  let resp :=
    match findOp c.2 c.1 with
    | none => Except.error EndpointError.serverError
    | some op => buildOperationResponse op
  (resp, c.2)

/-- Embedding of the `GET /api/operations/{operation_id}` endpoint body:
404 when the id is unknown, otherwise the response built from the stored
dict. -/
def get_operation_endpoint (store : Store) (opId : String) :
    Except EndpointError OpView :=
  match findOp store opId with
  | none => Except.error EndpointError.notFound
  | some op => buildOperationResponse op

end Server

/-! ## Spec-side predicates

Predicates transcribed from the words of the specification claims (not from
the code), for comparison with the embedded functions. -/

/-- The conditions of claim C7 as the claim words them: host is
`github.com` or `www.github.com`, the path has at least two segments with
non-empty username and repository name, and both the username and the
repository name after stripping a trailing `.git` consist only of ASCII
letters, digits, dots, hyphens and underscores. -/
def c7ClaimConditions (u : GitOperations.ParsedUrl) : Prop :=
  let segments := pySplit (pyStripChar '/' u.path) '/'
  let username := segments.headD ""
  let repo0 := (segments.get? 1).getD ""
  let repo := if pyEnds ".git" repo0 then pyDropRight repo0 4 else repo0
  (u.netloc = "github.com" ∨ u.netloc = "www.github.com") ∧
  2 ≤ segments.length ∧ username ≠ "" ∧ repo0 ≠ "" ∧
  username.data.all GitOperations.validNameChar = true ∧
  repo.data.all GitOperations.validNameChar = true

/-- The conditions of claim C7 as amended: additionally, the username and
the repository name after stripping a trailing `.git` are non-empty. -/
def c7AmendedConditions (u : GitOperations.ParsedUrl) : Prop :=
  let segments := pySplit (pyStripChar '/' u.path) '/'
  let username := segments.headD ""
  let repo0 := (segments.get? 1).getD ""
  let repo := if pyEnds ".git" repo0 then pyDropRight repo0 4 else repo0
  (u.netloc = "github.com" ∨ u.netloc = "www.github.com") ∧
  2 ≤ segments.length ∧ username ≠ "" ∧ repo0 ≠ "" ∧
  username.data.all GitOperations.validNameChar = true ∧
  repo ≠ "" ∧ repo.data.all GitOperations.validNameChar = true

/-- The per-component conditions of claim C8 as the claim words them: no
character from `< > : " / \ | ? *`, the segment before the first dot is not
a reserved device name (case-insensitively), length at most 255, and not
empty or whitespace-only. -/
def c8FilenameConditions (c : String) : Prop :=
  (∀ ch ∈ c.data, ch ∉ FileOperations.invalidChars) ∧
  pyUpper ((pySplit c '.').headD "") ∉ FileOperations.reservedNames ∧
  c.data.length ≤ 255 ∧
  pyStrip c ≠ ""

/-- The conditions of claim C8 as the claim words them: no component of the
path is `..` and every component satisfies the filename conditions. -/
def c8PathConditions (p : String) : Prop :=
  ".." ∉ FileOperations.pathParts p ∧
  ∀ c ∈ FileOperations.pathParts p, c8FilenameConditions c

/-! ## Helper lemmas about the operation store -/

/-- Updating an operation does not change the set of keys of the store. -/
theorem keys_update_eq (store : Server.Store) (opId st msg : String)
    (r : Option (List (String × String))) (e : Option String) (now : Nat) :
    Server.keys (Server.update_operation store opId st msg r e now) = Server.keys store := by
  unfold Server.keys Server.update_operation
  induction store with
  | nil => rfl
  | cons kv rest ih =>
    simp only [List.map_cons, List.cons.injEq]
    constructor
    · split <;> rfl
    · exact ih

/-- Looking up the updated key returns the updated record. -/
theorem findOp_update_self (store : Server.Store) (opId st msg : String)
    (r : Option (List (String × String))) (e : Option String) (now : Nat) :
    Server.findOp (Server.update_operation store opId st msg r e now) opId =
      (Server.findOp store opId).map (fun op =>
        { op with
          status := st,
          message := msg,
          result := r,
          error := e,
          completedAt :=
            if st = "completed" || st = "failed" then some now else op.completedAt }) := by
  unfold Server.findOp Server.update_operation
  induction store with
  | nil => rfl
  | cons kv rest ih =>
    simp only [List.map_cons]
    by_cases h : kv.1 = opId
    · rw [if_pos h]
      rw [List.find?_cons_of_pos _ (by simp [h]), List.find?_cons_of_pos _ (by simp [h])]
      simp
    · rw [if_neg h]
      rw [List.find?_cons_of_neg _ (by simp [h]), List.find?_cons_of_neg _ (by simp [h])]
      exact ih

/-- Looking up any other key is unaffected by an update. -/
theorem findOp_update_of_ne (store : Server.Store) (opId st msg : String)
    (r : Option (List (String × String))) (e : Option String) (now : Nat)
    (k : String) (hk : k ≠ opId) :
    Server.findOp (Server.update_operation store opId st msg r e now) k =
      Server.findOp store k := by
  unfold Server.findOp Server.update_operation
  induction store with
  | nil => rfl
  | cons kv rest ih =>
    simp only [List.map_cons]
    by_cases h2 : kv.1 = opId
    · rw [if_pos h2]
      rw [List.find?_cons_of_neg _ (by simp [h2]; exact Ne.symm hk),
        List.find?_cons_of_neg _ (by simp [h2]; exact Ne.symm hk)]
      exact ih
    · rw [if_neg h2]
      by_cases h3 : kv.1 = k
      · rw [List.find?_cons_of_pos _ (by simp [h3]), List.find?_cons_of_pos _ (by simp [h3])]
      · rw [List.find?_cons_of_neg _ (by simp [h3]), List.find?_cons_of_neg _ (by simp [h3])]
        exact ih

/-- Worker for `update_absent`: a store none of whose keys is `opId` is
unchanged by an update of `opId`. -/
theorem update_absent_aux (opId st msg : String)
    (r : Option (List (String × String))) (e : Option String) (now : Nat) :
    ∀ (l : Server.Store), (∀ kv ∈ l, kv.1 ≠ opId) →
      Server.update_operation l opId st msg r e now = l := by
  intro l
  unfold Server.update_operation
  induction l with
  | nil => intro _; rfl
  | cons kv rest ih =>
    intro hall
    have h1 : kv.1 ≠ opId := hall kv (List.mem_cons_self kv rest)
    rw [List.map_cons, if_neg h1]
    have h2 := ih (fun x hx => hall x (List.mem_cons_of_mem kv hx))
    rw [h2]

/-- Updating an id that is not in the store leaves the store unchanged. -/
theorem update_absent (store : Server.Store) (opId st msg : String)
    (r : Option (List (String × String))) (e : Option String) (now : Nat)
    (h : Server.findOp store opId = none) :
    Server.update_operation store opId st msg r e now = store := by
  apply update_absent_aux
  intro kv hkv
  unfold Server.findOp at h
  cases hf : List.find? (fun kv => decide (kv.1 = opId)) store with
  | none =>
    have := List.find?_eq_none.mp hf kv hkv
    simpa using this
  | some x =>
    rw [hf] at h
    simp at h

/-! ## Claim theorems -/

/-- C1 (code-bug evidence): with an existing repository directory `repo`
containing the section directory `docs`, `add_file_to_section` accepts the
filename `../../evil.txt` — which fails `is_valid_filename` — returns
`True`, and the file it creates is `evil.txt` at the root, outside the
repository directory, because only the final component of the joined path
is validated by `create_file`. -/
theorem c1_add_file_filename_traversal :
    (FileOperations.add_file_to_section ⟨[[], ["repo"], ["repo", "docs"]], []⟩
        "repo" "docs" "../../evil.txt" false false false).1 = true ∧
    (FileOperations.add_file_to_section ⟨[[], ["repo"], ["repo", "docs"]], []⟩
        "repo" "docs" "../../evil.txt" false false false).2.files = [["evil.txt"]] ∧
    FileOperations.is_valid_filename "../../evil.txt" = false ∧
    FileOperations.underDir (FileOperations.pathParts "repo") ["evil.txt"] = false :=
  ⟨rfl, rfl, rfl, rfl⟩

/-- C2 (code-bug evidence): the HTTP add-file job passes `content` as the
positional `dry_run` argument of `add_file_to_section`, so with the
non-empty content `"x"` no file is created and the job still reports status
`completed`, while the direct invocation of `add_file_to_section` on the
same state creates `repo/src/hello.txt`. -/
theorem c2_http_add_file_diverges :
    pyTruthy "x" = true ∧
    (Server.execute_add_file_operation
        (Server.create_operation [] "op1" "add-file" [] 0).2 "op1"
        ⟨[[], ["repo"]], []⟩ "repo" "src" "hello.txt" "x" false 1).2.files = [] ∧
    (Server.findOp
        (Server.execute_add_file_operation
          (Server.create_operation [] "op1" "add-file" [] 0).2 "op1"
          ⟨[[], ["repo"]], []⟩ "repo" "src" "hello.txt" "x" false 1).1
        "op1").map Server.Operation.status = some "completed" ∧
    (FileOperations.add_file_to_section ⟨[[], ["repo"]], []⟩
        "repo" "src" "hello.txt" false false false).1 = true ∧
    (FileOperations.add_file_to_section ⟨[[], ["repo"]], []⟩
        "repo" "src" "hello.txt" false false false).2.files = [["repo", "src", "hello.txt"]] :=
  ⟨rfl, rfl, rfl, rfl, rfl⟩

/-- C3 (counterexample): a clone whose `Repo.clone_from` raises — so that
`clone_repository` returns `False` — is still reported with final status
`completed`, because `execute_clone_operation` ignores the boolean result. -/
theorem c3_clone_completed_despite_failure :
    GitOperations.clone_repository
        ⟨false, false, false, false, none, some (GitOperations.PyExn.gitCommand "remote: not found")⟩
        ⟨"https://github.com/user/repo", "github.com", "/user/repo"⟩ false = (false, false) ∧
    (Server.findOp
        (Server.execute_clone_operation
          (Server.create_operation [] "op1" "clone" [] 0).2 "op1"
          ⟨"https://github.com/user/repo", "github.com", "/user/repo"⟩ "/tmp/x"
          ⟨false, false, false, false, none, some (GitOperations.PyExn.gitCommand "remote: not found")⟩ 1)
        "op1").map Server.Operation.status = some "completed" :=
  ⟨rfl, rfl⟩

/-- C3 (amended): on a registered operation id, the background clone and
push jobs record final status `completed` with a result whenever the
pre-validation passes (the URL is valid for clone; the path is a Git
repository for push), regardless of the delegated Git operation boolean
result, and `failed` with an error message exactly when the pre-validation
fails. -/
theorem c3_background_status_amended :
    (∀ (store : Server.Store) (opId : String) (u : GitOperations.ParsedUrl)
        (lp : String) (env : GitOperations.CloneEnv) (now : Nat) (op : Server.Operation),
      Server.findOp store opId = some op →
        Server.findOp (Server.execute_clone_operation store opId u lp env now) opId =
          some (if GitOperations.is_valid_repo_url u then
            { op with
              status := "completed",
              message := "Repository cloned successfully",
              result := some [("path", lp)],
              error := none,
              completedAt := some now }
          else
            { op with
              status := "failed",
              message := "Clone operation failed",
              result := none,
              error := some ("Invalid repository URL: " ++ u.raw),
              completedAt := some now })) ∧
    (∀ (store : Server.Store) (opId : String) (env : GitOperations.PushEnv)
        (rp msg : String) (now : Nat) (op : Server.Operation),
      Server.findOp store opId = some op →
        Server.findOp (Server.execute_push_operation store opId env rp msg now) opId =
          some (if env.isRepoValid then
            { op with
              status := "completed",
              message := "Changes pushed successfully",
              result := some [("commit_message", msg)],
              error := none,
              completedAt := some now }
          else
            { op with
              status := "failed",
              message := "Push operation failed",
              result := none,
              error := some ("Not a valid Git repository: " ++ rp),
              completedAt := some now })) := by
  constructor
  · intro store opId u lp env now op h
    unfold Server.execute_clone_operation
    by_cases hv : GitOperations.is_valid_repo_url u = true
    · simp only [hv, Bool.not_true, Bool.false_eq_true, if_false, if_true,
        findOp_update_self, h, Option.map_some]
      rfl
    · have hv2 : GitOperations.is_valid_repo_url u = false := by
        cases hb : GitOperations.is_valid_repo_url u
        · rfl
        · exact absurd hb hv
      simp only [hv2, Bool.not_false, if_true, if_false,
        findOp_update_self, h, Option.map_some]
      rfl
  · intro store opId env rp msg now op h
    by_cases hv : env.isRepoValid = true
    · unfold Server.execute_push_operation
      simp only [hv, Bool.not_true, Bool.false_eq_true, if_false, if_true,
        findOp_update_self, h, Option.map_some]
      rfl
    · have hv2 : env.isRepoValid = false := by
        cases hb : env.isRepoValid
        · rfl
        · exact absurd hb hv
      unfold Server.execute_push_operation
      simp only [hv2, Bool.not_false, if_true, if_false,
        findOp_update_self, h, Option.map_some]
      rfl

/-- Witness for C3 (amended): a concrete valid-URL clone with a failing
delegated clone still ends `completed`, and a concrete push on an invalid
repository ends `failed`. -/
theorem c3_background_status_amended_witness :
    Server.findOp
        (Server.execute_clone_operation
          [("op1", ⟨"op1", "clone", "pending", "Operation clone created", [], 0, none, none, none⟩)]
          "op1" ⟨"https://github.com/user/repo", "github.com", "/user/repo"⟩ "/tmp/x"
          ⟨false, false, false, false, none, some (GitOperations.PyExn.gitCommand "boom")⟩ 1)
        "op1" =
      some ⟨"op1", "clone", "completed", "Repository cloned successfully", [], 0, some 1,
        some [("path", "/tmp/x")], none⟩ ∧
    Server.findOp
        (Server.execute_push_operation
          [("op2", ⟨"op2", "push", "pending", "Operation push created", [], 0, none, none, none⟩)]
          "op2" ⟨false, true, [], none, none, true, none, "u", "main", none⟩ "/tmp/r" "msg" 1)
        "op2" =
      some ⟨"op2", "push", "failed", "Push operation failed", [], 0, some 1, none,
        some "Not a valid Git repository: /tmp/r"⟩ :=
  ⟨c3_background_status_amended.1
      [("op1", ⟨"op1", "clone", "pending", "Operation clone created", [], 0, none, none, none⟩)]
      "op1" ⟨"https://github.com/user/repo", "github.com", "/user/repo"⟩ "/tmp/x"
      ⟨false, false, false, false, none, some (GitOperations.PyExn.gitCommand "boom")⟩ 1
      ⟨"op1", "clone", "pending", "Operation clone created", [], 0, none, none, none⟩ rfl,
   c3_background_status_amended.2
      [("op2", ⟨"op2", "push", "pending", "Operation push created", [], 0, none, none, none⟩)]
      "op2" ⟨false, true, [], none, none, true, none, "u", "main", none⟩ "/tmp/r" "msg" 1
      ⟨"op2", "push", "pending", "Operation push created", [], 0, none, none, none⟩ rfl⟩

/-- C5 (code-bug evidence): the POST endpoints store the new operation with
status `pending`, but building the `OperationResponse` from the stored dict
fails pydantic validation (the dict key is `id`, the required model field is
`operation_id`), so every POST — and every GET on an existing id — ends in
a server error instead of the pending response; 404 is still raised only
for identifiers that were never created. -/
theorem c5_endpoints_raise_validation_error :
    (Server.clone_endpoint [] "op1" "https://github.com/user/repo" "/tmp/x" 0).1 =
      Except.error Server.EndpointError.serverError ∧
    (Server.findOp (Server.clone_endpoint [] "op1" "https://github.com/user/repo" "/tmp/x" 0).2
        "op1").map Server.Operation.status = some "pending" ∧
    Server.get_operation_endpoint
        (Server.clone_endpoint [] "op1" "https://github.com/user/repo" "/tmp/x" 0).2 "op1" =
      Except.error Server.EndpointError.serverError ∧
    Server.get_operation_endpoint
        (Server.clone_endpoint [] "op1" "https://github.com/user/repo" "/tmp/x" 0).2 "op2" =
      Except.error Server.EndpointError.notFound ∧
    (Server.push_endpoint [] "op1" "/tmp/r" "msg" 0).1 =
      Except.error Server.EndpointError.serverError ∧
    (Server.add_file_endpoint [] "op1" "repo" "src" "a.txt" "" 0).1 =
      Except.error Server.EndpointError.serverError :=
  ⟨rfl, rfl, rfl, rfl, rfl, rfl⟩

/-- List membership matches the boolean `contains` under decidable equality. -/
theorem contains_iff_mem {α : Type} [DecidableEq α] (l : List α) (a : α) :
    l.contains a = true ↔ a ∈ l := by
  simp [List.contains]

/-- The boolean `is_valid_filename` agrees with the four spelled-out
conditions of claim C8. -/
theorem is_valid_filename_iff (c : String) :
    FileOperations.is_valid_filename c = true ↔ c8FilenameConditions c := by
  unfold FileOperations.is_valid_filename c8FilenameConditions
  split_ifs with h1 h2 h3 h4
  · simp only [Bool.false_eq_true, false_iff]
    intro hcon
    rcases List.any_eq_true.mp h1 with ⟨ch, hmem, hch⟩
    exact hcon.1 ch hmem ((contains_iff_mem _ _).mp hch)
  · simp only [Bool.false_eq_true, false_iff]
    intro hcon
    exact hcon.2.1 ((contains_iff_mem _ _).mp h2)
  · simp only [Bool.false_eq_true, false_iff]
    intro hcon
    exact absurd hcon.2.2.1 (Nat.not_le.mpr h3)
  · simp only [Bool.false_eq_true, false_iff]
    intro hcon
    exact hcon.2.2.2 h4
  · simp only [true_iff]
    refine ⟨?_, ?_, ?_, h4⟩
    · intro ch hmem hch
      exact h1 (List.any_eq_true.mpr ⟨ch, hmem, (contains_iff_mem _ _).mpr hch⟩)
    · intro hres
      exact h2 ((contains_iff_mem _ _).mpr hres)
    · exact Nat.not_lt.mp h3

/-- C8: `is_valid_path` returns `True` for a path exactly when no component
of the path is `..` and every component satisfies the conditions of
`is_valid_filename`: none of the characters `< > : " / \ | ? *`, the
segment before the first dot is not a Windows reserved device name
(case-insensitively), length at most 255, and not empty or
whitespace-only. -/
theorem c8_is_valid_path_characterization (p : String) :
    FileOperations.is_valid_path p = true ↔ c8PathConditions p := by
  unfold FileOperations.is_valid_path c8PathConditions
  by_cases hc : (".." ∈ FileOperations.pathParts p)
  · rw [if_pos ((contains_iff_mem _ _).mpr hc)]
    simp only [Bool.false_eq_true, false_iff]
    intro h
    exact h.1 hc
  · rw [if_neg (fun hh => hc ((contains_iff_mem _ _).mp hh))]
    simp only [List.all_eq_true]
    constructor
    · intro h
      exact ⟨hc, fun c hcmem => (is_valid_filename_iff c).mp (h c hcmem)⟩
    · intro h c hcmem
      exact (is_valid_filename_iff c).mpr (h.2 c hcmem)

/-- Witness for C8: the characterization applied to the section path
`src/components`. -/
theorem c8_is_valid_path_characterization_witness :
    FileOperations.is_valid_path "src/components" = true :=
  (c8_is_valid_path_characterization "src/components").mpr
    (by unfold c8PathConditions c8FilenameConditions; decide)

/-- C4: `create_operation` inserts exactly one new entry with status
`pending` under the generated identifier; `update_operation` only modifies
the fields of an existing entry — it preserves the key set, leaves every
other entry untouched, and is the identity when the id is absent; and every
server operation (the three POST endpoints and the three background
execution functions) preserves every key already present: nothing ever
removes an entry. -/
theorem c4_store_no_eviction :
    (∀ (store : Server.Store) (newId ty : String) (params : List (String × String)) (now : Nat),
      Server.findOp store newId = none →
        Server.keys (Server.create_operation store newId ty params now).2 =
          newId :: Server.keys store ∧
        (Server.findOp (Server.create_operation store newId ty params now).2 newId).map
          Server.Operation.status = some "pending" ∧
        (∀ k, k ≠ newId →
          Server.findOp (Server.create_operation store newId ty params now).2 k =
            Server.findOp store k)) ∧
    (∀ (store : Server.Store) (opId st msg : String)
        (r : Option (List (String × String))) (e : Option String) (now : Nat),
      Server.keys (Server.update_operation store opId st msg r e now) = Server.keys store ∧
      (Server.findOp store opId = none →
        Server.update_operation store opId st msg r e now = store) ∧
      (∀ k, k ≠ opId →
        Server.findOp (Server.update_operation store opId st msg r e now) k =
          Server.findOp store k)) ∧
    (∀ (store : Server.Store) (newId ru lp rp cm sct fn ct : String) (now : Nat) (k : String),
      k ∈ Server.keys store →
        k ∈ Server.keys (Server.clone_endpoint store newId ru lp now).2 ∧
        k ∈ Server.keys (Server.push_endpoint store newId rp cm now).2 ∧
        k ∈ Server.keys (Server.add_file_endpoint store newId rp sct fn ct now).2) ∧
    (∀ (store : Server.Store) (opId : String) (u : GitOperations.ParsedUrl)
        (lp : String) (env : GitOperations.CloneEnv) (now : Nat),
      Server.keys (Server.execute_clone_operation store opId u lp env now) =
        Server.keys store) ∧
    (∀ (store : Server.Store) (opId : String) (env : GitOperations.PushEnv)
        (rp msg : String) (now : Nat),
      Server.keys (Server.execute_push_operation store opId env rp msg now) =
        Server.keys store) ∧
    (∀ (store : Server.Store) (opId : String) (fs : FileOperations.FS)
        (rp sct fn ct : String) (promptYes : Bool) (now : Nat),
      Server.keys (Server.execute_add_file_operation store opId fs rp sct fn ct promptYes now).1 =
        Server.keys store) := by
  refine ⟨?_, ?_, ?_, ?_, ?_, ?_⟩
  · intro store newId ty params now _h
    refine ⟨rfl, ?_, ?_⟩
    · unfold Server.findOp Server.create_operation
      rw [List.find?_cons_of_pos _ (by simp)]
      rfl
    · intro k hk
      unfold Server.findOp Server.create_operation
      rw [List.find?_cons_of_neg _ (by simp; exact Ne.symm hk)]
  · intro store opId st msg r e now
    exact ⟨keys_update_eq store opId st msg r e now,
      update_absent store opId st msg r e now,
      fun k hk => findOp_update_of_ne store opId st msg r e now k hk⟩
  · intro store newId ru lp rp cm sct fn ct now k hk
    exact ⟨List.mem_cons_of_mem _ hk, List.mem_cons_of_mem _ hk, List.mem_cons_of_mem _ hk⟩
  · intro store opId u lp env now
    unfold Server.execute_clone_operation
    split
    · rw [keys_update_eq, keys_update_eq]
    · rw [keys_update_eq, keys_update_eq]
  · intro store opId env rp msg now
    unfold Server.execute_push_operation
    split
    · rw [keys_update_eq, keys_update_eq]
    · rw [keys_update_eq, keys_update_eq]
  · intro store opId fs rp sct fn ct promptYes now
    unfold Server.execute_add_file_operation
    split
    · rw [keys_update_eq, keys_update_eq]
    · split
      · rw [keys_update_eq, keys_update_eq]
      · rw [keys_update_eq, keys_update_eq]

/-- Witness for C4: the conjuncts applied to a store holding one concrete
pending operation and a fresh id. -/
theorem c4_store_no_eviction_witness :
    Server.keys (Server.create_operation
        [("op1", ⟨"op1", "clone", "pending", "Operation clone created", [], 0, none, none, none⟩)]
        "op2" "push" [] 3).2 = ["op2", "op1"] ∧
    Server.keys (Server.update_operation
        [("op1", ⟨"op1", "clone", "pending", "Operation clone created", [], 0, none, none, none⟩)]
        "op1" "running" "Cloning repository..." none none 3) = ["op1"] :=
  ⟨(c4_store_no_eviction.1
      [("op1", ⟨"op1", "clone", "pending", "Operation clone created", [], 0, none, none, none⟩)]
      "op2" "push" [] 3 rfl).1,
   (c4_store_no_eviction.2.1
      [("op1", ⟨"op1", "clone", "pending", "Operation clone created", [], 0, none, none, none⟩)]
      "op1" "running" "Cloning repository..." none none 3).1⟩

/-- C6: the `try/except` wrappers of `clone_repository` and `push_changes`
catch every exception the body raises and return `False`: whenever the body
ends in an exception, the function still returns a boolean, namely
`False`. -/
theorem c6_git_ops_swallow_exceptions :
    (∀ (env : GitOperations.CloneEnv) (u : GitOperations.ParsedUrl) (d : Bool)
        (e : GitOperations.PyExn),
      (GitOperations.cloneBody env u d).1 = Except.error e →
        (GitOperations.clone_repository env u d).1 = false) ∧
    (∀ (env : GitOperations.PushEnv) (msg : String) (d : Bool)
        (e : GitOperations.PyExn),
      (GitOperations.pushBody env msg d).1 = Except.error e →
        (GitOperations.push_changes env msg d).1 = false) := by
  constructor
  · intro env u d e h
    unfold GitOperations.clone_repository
    rcases hb : GitOperations.cloneBody env u d with ⟨r, c⟩
    rw [hb] at h
    simp only at h
    rw [h]
  · intro env msg d e h
    unfold GitOperations.push_changes
    rcases hb : GitOperations.pushBody env msg d with ⟨r, s⟩
    rw [hb] at h
    simp only at h
    rw [h]

/-- Witness for C6: a clone whose `Repo.clone_from` raises and a push whose
`git add` raises both return `False`. -/
theorem c6_git_ops_swallow_exceptions_witness :
    (GitOperations.clone_repository
        ⟨false, false, false, false, none, some (GitOperations.PyExn.other "boom")⟩
        ⟨"https://github.com/u/r", "github.com", "/u/r"⟩ false).1 = false ∧
    (GitOperations.push_changes
        ⟨true, true, [], some (GitOperations.PyExn.other "boom"), none, true, none,
          "https://github.com/u/r", "main", none⟩ "msg" false).1 = false :=
  ⟨c6_git_ops_swallow_exceptions.1
      ⟨false, false, false, false, none, some (GitOperations.PyExn.other "boom")⟩
      ⟨"https://github.com/u/r", "github.com", "/u/r"⟩ false
      (GitOperations.PyExn.other "boom") rfl,
   c6_git_ops_swallow_exceptions.2
      ⟨true, true, [], some (GitOperations.PyExn.other "boom"), none, true, none,
        "https://github.com/u/r", "main", none⟩ "msg" false
      (GitOperations.PyExn.other "boom") rfl⟩

/-- C7 (counterexample): on the URL `https://github.com/user/.git` — whose
second path segment is exactly `.git`, so the repository name is non-empty
but becomes empty after stripping the `.git` suffix — the conditions of
the claim hold, yet `is_valid_repo_url` returns `False` because the regex
requires at least one character. -/
theorem c7_url_validation_counterexample :
    GitOperations.is_valid_repo_url
        ⟨"https://github.com/user/.git", "github.com", "/user/.git"⟩ = false ∧
    c7ClaimConditions ⟨"https://github.com/user/.git", "github.com", "/user/.git"⟩ :=
  ⟨rfl, by unfold c7ClaimConditions; decide⟩

/-- C7 (amended): `is_valid_repo_url` returns `True` exactly when the host
is `github.com` or `www.github.com`, the path has at least two segments
with non-empty username and repository name, and both the username and the
repository name after stripping a trailing `.git` are non-empty and consist
only of ASCII letters, digits, dots, hyphens and underscores; and whenever
this validation fails, `clone_repository` returns `False` without
cloning. -/
theorem c7_url_validation_amended :
    (∀ u : GitOperations.ParsedUrl,
      GitOperations.is_valid_repo_url u = true ↔ c7AmendedConditions u) ∧
    (∀ (u : GitOperations.ParsedUrl) (env : GitOperations.CloneEnv) (d : Bool),
      GitOperations.is_valid_repo_url u = false →
        GitOperations.clone_repository env u d = (false, false)) := by
  constructor
  · intro u
    unfold GitOperations.is_valid_repo_url c7AmendedConditions GitOperations.matchesNamePattern
    dsimp only
    by_cases hn : (u.netloc = "github.com" ∨ u.netloc = "www.github.com")
    · rw [if_neg (by rcases hn with h | h <;> simp [h])]
      by_cases hlen : (pySplit (pyStripChar '/' u.path) '/').length < 2
      · rw [if_pos hlen]
        simp only [Bool.false_eq_true, false_iff]
        intro hcon
        exact (Nat.not_le.mpr hlen) hcon.2.1
      · rw [if_neg hlen]
        by_cases he : ((pySplit (pyStripChar '/' u.path) '/').headD "" = "" ∨
            ((pySplit (pyStripChar '/' u.path) '/').get? 1).getD "" = "")
        · rw [if_pos (by rcases he with h | h <;> simp only [h] <;> simp)]
          simp only [Bool.false_eq_true, false_iff]
          intro hcon
          rcases he with h | h
          · exact hcon.2.2.1 h
          · exact hcon.2.2.2.1 h
        · rw [if_neg (by simp only [Bool.or_eq_true, decide_eq_true_eq]; exact he)]
          simp only [Bool.and_eq_true, decide_eq_true_eq]
          constructor
          · rintro ⟨⟨hu1, hu2⟩, hr1, hr2⟩
            exact ⟨hn, Nat.not_lt.mp hlen, (not_or.mp he).1, (not_or.mp he).2, hu2, hr1, hr2⟩
          · rintro ⟨_, _, hu, hr0, hall, hrne, hrall⟩
            exact ⟨⟨hu, hall⟩, hrne, hrall⟩
    · rw [if_pos (by rcases not_or.mp hn with ⟨ha, hb⟩; simp [ha, hb])]
      simp only [Bool.false_eq_true, false_iff]
      intro hcon
      exact hn hcon.1
  · intro u env d h
    unfold GitOperations.clone_repository GitOperations.cloneBody
    rw [h]
    rfl

/-- Witness for C7 (amended): a standard repository URL validates, and a
non-GitHub host makes `clone_repository` return `False` without cloning. -/
theorem c7_url_validation_amended_witness :
    GitOperations.is_valid_repo_url
        ⟨"https://github.com/user/repo.git", "github.com", "/user/repo.git"⟩ = true ∧
    GitOperations.clone_repository ⟨false, false, false, false, none, none⟩
        ⟨"https://gitlab.com/user/repo", "gitlab.com", "/user/repo"⟩ false = (false, false) :=
  ⟨(c7_url_validation_amended.1
      ⟨"https://github.com/user/repo.git", "github.com", "/user/repo.git"⟩).mpr
      (by unfold c7AmendedConditions; decide),
   c7_url_validation_amended.2 ⟨"https://gitlab.com/user/repo", "gitlab.com", "/user/repo"⟩
      ⟨false, false, false, false, none, none⟩ false rfl⟩

/-- C9: on a valid Git repository whose working tree is clean (not dirty,
no untracked files), `push_changes` returns `True` and leaves the
repository unchanged: nothing is staged, no commit is created, no push is
performed, and the origin remote URL is untouched. -/
theorem c9_push_clean_repo_noop (env : GitOperations.PushEnv) (msg : String) (d : Bool)
    (h1 : env.isRepoValid = true) (h2 : env.isDirty = false) (h3 : env.untracked = []) :
    GitOperations.push_changes env msg d = (true, GitOperations.initRepoState env) ∧
    (GitOperations.initRepoState env).staged = false ∧
    (GitOperations.initRepoState env).commits = [] ∧
    (GitOperations.initRepoState env).pushes = [] ∧
    (GitOperations.initRepoState env).originUrl = env.originUrl := by
  refine ⟨?_, rfl, rfl, rfl, rfl⟩
  unfold GitOperations.push_changes GitOperations.pushBody
  rw [h1, h2, h3]
  rfl

/-- Witness for C9: a concrete clean repository. -/
theorem c9_push_clean_repo_noop_witness :
    GitOperations.push_changes
        ⟨true, false, [], none, none, true, none, "https://github.com/u/r", "main", none⟩
        "msg" false =
      (true, GitOperations.initRepoState
        ⟨true, false, [], none, none, true, none, "https://github.com/u/r", "main", none⟩) :=
  (c9_push_clean_repo_noop
    ⟨true, false, [], none, none, true, none, "https://github.com/u/r", "main", none⟩
    "msg" false rfl rfl rfl).1

/-- C10: when a GitHub token is configured (truthy) and the origin remote
URL starts with `https://github.com/`, `push_changes` — on a path where it
actually pushes: valid dirty repository, no dry run, staging and commit
succeed, the origin remote exists — rewrites the origin URL to embed the
token before pushing, and the rewritten URL is still stored in the final
repository state whether or not the push itself succeeds. -/
theorem c10_push_token_rewrites_remote (env : GitOperations.PushEnv) (msg tok : String)
    (htok : env.token = some tok) (hne : tok ≠ "")
    (hurl : pyStarts "https://github.com/" env.originUrl = true)
    (hrepo : env.isRepoValid = true) (hdirty : env.isDirty = true)
    (hadd : env.addExn = none) (hcommit : env.commitExn = none)
    (hremote : env.remoteExists = true) :
    (GitOperations.push_changes env msg false).2.originUrl =
      pyReplace env.originUrl "https://github.com/" ("https://" ++ tok ++ "@github.com/") ∧
    (env.pushExn = none →
      GitOperations.push_changes env msg false =
        (true,
          ⟨pyReplace env.originUrl "https://github.com/" ("https://" ++ tok ++ "@github.com/"),
            true, [msg], [env.defaultBranch]⟩)) := by
  unfold GitOperations.push_changes GitOperations.pushBody GitOperations.initRepoState
  rw [hrepo, hdirty, hadd, hcommit, hremote, htok]
  unfold GitOperations.tokenTruthy
  dsimp only
  rw [hurl, decide_eq_true hne]
  cases hpush : env.pushExn with
  | none => exact ⟨rfl, fun _ => rfl⟩
  | some e => exact ⟨rfl, fun hh => absurd hh (by simp)⟩

/-- Witness for C10: a concrete dirty repository with token `TOK`; the
rewritten URL is the original with the token embedded after the scheme. -/
theorem c10_push_token_rewrites_remote_witness :
    (GitOperations.push_changes
        ⟨true, true, [], none, none, true, some "TOK", "https://github.com/u/r.git", "main", none⟩
        "msg" false).2.originUrl =
      pyReplace "https://github.com/u/r.git" "https://github.com/" ("https://" ++ "TOK" ++ "@github.com/") ∧
    pyReplace "https://github.com/u/r.git" "https://github.com/" ("https://" ++ "TOK" ++ "@github.com/") =
      "https://TOK@github.com/u/r.git" :=
  ⟨(c10_push_token_rewrites_remote
      ⟨true, true, [], none, none, true, some "TOK", "https://github.com/u/r.git", "main", none⟩
      "msg" "TOK" rfl (by decide) rfl rfl rfl rfl rfl rfl).1,
   rfl⟩
